import Mathlib

/-
Shallow embedding of `src/iOS/src/toga_iOS/container.py` (the toga iOS
container adapter layer).

Modelling choices:
* Native view geometry uses rationals (`ℚ`) for the CGFloat fields; no
  claim depends on floating-point rounding.
* `UIView` objects live in a heap `ViewId → UIViewData`; a container
  stores view *references* (`ViewId`), so the aliasing in
  `self.layout_native = self.native if layout_native is None else layout_native`
  is preserved.
* Widget impls are identified by `WidgetId`; the only attribute of a
  widget this module touches is its `container` reference, modelled as a
  map `WidgetId → Option ContainerId`.  A widget reference of `none`
  models Python `None`; widget objects themselves are truthy.
* Python attribute errors and calling `None` are modelled with `Except
  PyErr`: `RootContainer.__init__` never assigns `_title`, so the
  `_title` slot is `Option (Option String)` with outer `none` meaning
  "attribute absent" (reading it raises `AttributeError`); `on_refresh`
  is `Option CallableId` with `none` meaning Python `None` (calling it
  raises `TypeError`).
* `NavigationContainer.content_controller` is the same object as
  `controller.topViewController` (the controller is constructed with
  `initWithRootViewController(content_controller)`), so it is stored
  once, as the navigation controller's `topViewController` field.
-/

namespace TogaIOS

/-- A CGSize: width/height of a native rect. -/
structure CGSize where
  width : ℚ
  height : ℚ
deriving Repr, DecidableEq

/-- A CGRect; only its size is read by the module. -/
structure CGRect where
  size : CGSize
deriving Repr, DecidableEq

abbrev ViewId := Nat
abbrev WidgetId := Nat
abbrev ContainerId := Nat
abbrev CallableId := Nat

/-- UIViewAutoresizing.FlexibleWidth (UIKit value 1 << 1). -/
def UIViewAutoresizing.FlexibleWidth : Nat := 2

/-- UIViewAutoresizing.FlexibleHeight (UIKit value 1 << 4). -/
def UIViewAutoresizing.FlexibleHeight : Nat := 16

/-- The mutable state of a native UIView. -/
structure UIViewData where
  bounds : CGRect
  translatesAutoresizingMaskIntoConstraints : Bool
  autoresizingMask : Nat
deriving Repr, DecidableEq

/-- `UIView.alloc().init()`: a fresh view with zero bounds and default flags. -/
def UIView.alloc_init : UIViewData :=
  { bounds := { size := { width := 0, height := 0 } },
    translatesAutoresizingMaskIntoConstraints := true,
    autoresizingMask := 0 }

/-- The view heap: the live state of every native view, by reference. -/
abbrev ViewHeap := ViewId → UIViewData

/-- Overwrite the bounds of one view in the heap (a native-side resize). -/
def setViewBounds (heap : ViewHeap) (v : ViewId) (b : CGRect) : ViewHeap :=
  fun i => if i = v then { heap i with bounds := b } else heap i

/-- The state of `UIApplication.sharedApplication` read by the module. -/
structure UIApplicationState where
  statusBarFrame : CGRect
deriving Repr, DecidableEq

/-- The state of a UIKit navigation bar read by the module. -/
structure UINavigationBar where
  frame : CGRect
deriving Repr, DecidableEq

/-- The state of a `UIViewController` touched by the module. -/
structure UIViewControllerData where
  title : Option String
  view : Option ViewId
deriving Repr, DecidableEq

/-- `UIViewController.alloc().init()`: no title, no view yet. -/
def UIViewController.alloc_init : UIViewControllerData :=
  { title := none, view := none }

/-- The state of a `UINavigationController` touched by the module. -/
structure UINavigationControllerData where
  navigationBar : UINavigationBar
  topViewController : UIViewControllerData
deriving Repr, DecidableEq

/-- `UINavigationController.alloc().initWithRootViewController(root)`:
the root view controller becomes the top view controller; UIKit supplies
the navigation bar object. -/
def UINavigationController.initWithRootViewController
    (bar : UINavigationBar) (root : UIViewControllerData) :
    UINavigationControllerData :=
  { navigationBar := bar, topViewController := root }

/-- Errors a Python operation of the module can raise. -/
inductive PyErr where
  | typeError
  | attributeError
deriving Repr, DecidableEq

/-- The per-widget `container` attribute, by widget reference. -/
abbrev WidgetHeap := WidgetId → Option ContainerId

/-- `BaseContainer.__init__`: holds `_content` and `on_refresh` exactly as
assigned by the constructor. -/
structure BaseContainer where
  _content : Option WidgetId
  on_refresh : Option CallableId
deriving Repr, DecidableEq

/-- The `content` property getter: `return self._content`. -/
def BaseContainer.content (self : BaseContainer) : Option WidgetId :=
  self._content

/-- The `content` property setter, acting on the container and the widget
heap.  Transcribes:
`if self.content: self._content.container = None` /
`self._content = widget` /
`if widget: widget.container = self`. -/
def BaseContainer.contentSet (selfId : ContainerId) (self : BaseContainer)
    (wh : WidgetHeap) (widget : Option WidgetId) :
    BaseContainer × WidgetHeap :=
  let wh1 : WidgetHeap :=
    match self.content with
    | none => wh
    | some c => fun i => if i = c then none else wh i
  let self1 : BaseContainer := { self with _content := widget }
  let wh2 : WidgetHeap :=
    match widget with
    | none => wh1
    | some w => fun i => if i = w then some selfId else wh1 i
  (self1, wh2)

/-- One observable event of a refresh callback invocation: the callable
that was applied and the argument it received. -/
inductive RefreshCall (α : Type) where
  | call (f : CallableId) (arg : α)
deriving Repr, DecidableEq

/-- The body of `refreshed`, `self.on_refresh(self)`: calling Python
`None` raises `TypeError`; a real callable is applied exactly once, with
`self` as its sole argument, and the trace of that single synchronous
call is returned. -/
def refreshedRun {α : Type} (on_refresh : Option CallableId) (self : α) :
    Except PyErr (List (RefreshCall α)) :=
  match on_refresh with
  | none => Except.error PyErr.typeError
  | some f => Except.ok [RefreshCall.call f self]

/-- `BaseContainer.refreshed`. -/
def BaseContainer.refreshed (self : BaseContainer) :
    Except PyErr (List (RefreshCall BaseContainer)) :=
  refreshedRun self.on_refresh self

/-- `Container`: a `BaseContainer` plus the native view and the view used
for size hints. -/
structure Container extends BaseContainer where
  native : ViewId
  layout_native : ViewId
deriving Repr, DecidableEq

/-- `Container.__init__`.  `fresh` is the reference returned by
`UIView.alloc().init()`; the constructor configures its autoresizing and
stores `layout_native = self.native if layout_native is None else
layout_native`. -/
def Container.init (heap : ViewHeap) (fresh : ViewId)
    (content : Option WidgetId) (layout_native : Option ViewId)
    (on_refresh : Option CallableId) : ViewHeap × Container :=
  let nativeView : UIViewData :=
    { UIView.alloc_init with
        translatesAutoresizingMaskIntoConstraints := true,
        autoresizingMask :=
          UIViewAutoresizing.FlexibleWidth ||| UIViewAutoresizing.FlexibleHeight }
  let heap1 : ViewHeap := fun i => if i = fresh then nativeView else heap i
  (heap1,
   { _content := content,
     on_refresh := on_refresh,
     native := fresh,
     layout_native :=
       match layout_native with
       | none => fresh
       | some l => l })

/-- `Container.width`: `self.layout_native.bounds.size.width`. -/
def Container.width (heap : ViewHeap) (self : Container) : ℚ :=
  (heap self.layout_native).bounds.size.width

/-- `Container.height`: `self.layout_native.bounds.size.height`. -/
def Container.height (heap : ViewHeap) (self : Container) : ℚ :=
  (heap self.layout_native).bounds.size.height

/-- `Container.top_offset`: `return 0`. -/
def Container.top_offset (_self : Container) : ℚ := 0

/-- Inherited `content` getter on `Container`. -/
def Container.content (self : Container) : Option WidgetId :=
  self.toBaseContainer.content

/-- Inherited `content` setter on `Container`. -/
def Container.contentSet (selfId : ContainerId) (self : Container)
    (wh : WidgetHeap) (widget : Option WidgetId) : Container × WidgetHeap :=
  let p := BaseContainer.contentSet selfId self.toBaseContainer wh widget
  ({ self with toBaseContainer := p.1 }, p.2)

/-- Inherited `refreshed` on `Container`. -/
def Container.refreshed (self : Container) :
    Except PyErr (List (RefreshCall Container)) :=
  refreshedRun self.on_refresh self

/-- `ControlledContainer`: a `Container` plus a plain view controller. -/
structure ControlledContainer extends Container where
  controller : UIViewControllerData
deriving Repr, DecidableEq

/-- `ControlledContainer.__init__`: delegates to `Container.__init__`,
then `self.controller = UIViewController.alloc().init()` and
`self.controller.view = self.native`. -/
def ControlledContainer.init (heap : ViewHeap) (fresh : ViewId)
    (content : Option WidgetId) (layout_native : Option ViewId)
    (on_refresh : Option CallableId) : ViewHeap × ControlledContainer :=
  let p := Container.init heap fresh content layout_native on_refresh
  (p.1,
   { toContainer := p.2,
     controller := { UIViewController.alloc_init with view := some p.2.native } })

/-- Inherited `content` setter on `ControlledContainer`. -/
def ControlledContainer.contentSet (selfId : ContainerId)
    (self : ControlledContainer) (wh : WidgetHeap) (widget : Option WidgetId) :
    ControlledContainer × WidgetHeap :=
  let p := BaseContainer.contentSet selfId self.toBaseContainer wh widget
  ({ self with toBaseContainer := p.1 }, p.2)

/-- Inherited `refreshed` on `ControlledContainer`. -/
def ControlledContainer.refreshed (self : ControlledContainer) :
    Except PyErr (List (RefreshCall ControlledContainer)) :=
  refreshedRun self.on_refresh self

/-- `RootContainer`: a `Container` plus a view controller and the
`_title` slot.  `__init__` never assigns `_title`, so the slot starts
absent (outer `none`); the inner `Option String` is the Python value
stored by the setter, which may itself be `None`. -/
structure RootContainer extends Container where
  controller : UIViewControllerData
  _title : Option (Option String)
deriving Repr, DecidableEq

/-- `RootContainer.__init__`: delegates to `Container.__init__`, then
`self.controller = UIViewController.alloc().init()` and
`self.controller.view = self.native`.  `_title` is not assigned. -/
def RootContainer.init (heap : ViewHeap) (fresh : ViewId)
    (content : Option WidgetId) (layout_native : Option ViewId)
    (on_refresh : Option CallableId) : ViewHeap × RootContainer :=
  let p := Container.init heap fresh content layout_native on_refresh
  (p.1,
   { toContainer := p.2,
     controller := { UIViewController.alloc_init with view := some p.2.native },
     _title := none })

/-- `RootContainer.top_offset`:
`UIApplication.sharedApplication.statusBarFrame.size.height`. -/
def RootContainer.top_offset (app : UIApplicationState)
    (_self : RootContainer) : ℚ :=
  app.statusBarFrame.size.height

/-- `RootContainer.height`:
`self.layout_native.bounds.size.height - self.top_offset`. -/
def RootContainer.height (heap : ViewHeap) (app : UIApplicationState)
    (self : RootContainer) : ℚ :=
  (heap self.layout_native).bounds.size.height - self.top_offset app

/-- Inherited `width` on `RootContainer`. -/
def RootContainer.width (heap : ViewHeap) (self : RootContainer) : ℚ :=
  Container.width heap self.toContainer

/-- `RootContainer.title` getter: `return self._title`, which raises
`AttributeError` when the attribute was never assigned. -/
def RootContainer.titleGet (self : RootContainer) :
    Except PyErr (Option String) :=
  match self._title with
  | none => Except.error PyErr.attributeError
  | some v => Except.ok v

/-- `RootContainer.title` setter: `self._title = value`. -/
def RootContainer.titleSet (self : RootContainer) (value : Option String) :
    RootContainer :=
  { self with _title := some value }

/-- Inherited `content` setter on `RootContainer`. -/
def RootContainer.contentSet (selfId : ContainerId) (self : RootContainer)
    (wh : WidgetHeap) (widget : Option WidgetId) : RootContainer × WidgetHeap :=
  let p := BaseContainer.contentSet selfId self.toBaseContainer wh widget
  ({ self with toBaseContainer := p.1 }, p.2)

/-- Inherited `refreshed` on `RootContainer`. -/
def RootContainer.refreshed (self : RootContainer) :
    Except PyErr (List (RefreshCall RootContainer)) :=
  refreshedRun self.on_refresh self

/-- `NavigationContainer`: a `Container` plus a navigation controller.
`content_controller` is the same object as `controller.topViewController`
(the navigation controller is constructed with it as root), so it is
stored once, inside `controller`. -/
structure NavigationContainer extends Container where
  controller : UINavigationControllerData
deriving Repr, DecidableEq

/-- `NavigationContainer.__init__`: delegates to `Container.__init__`,
then `self.content_controller = UIViewController.alloc().init()`,
`self.controller = UINavigationController.alloc()
.initWithRootViewController(self.content_controller)`, and
`self.content_controller.view = self.native`.  `bar` is the navigation
bar object UIKit creates for the navigation controller. -/
def NavigationContainer.init (heap : ViewHeap) (fresh : ViewId)
    (content : Option WidgetId) (layout_native : Option ViewId)
    (on_refresh : Option CallableId) (bar : UINavigationBar) :
    ViewHeap × NavigationContainer :=
  let p := Container.init heap fresh content layout_native on_refresh
  let content_controller := UIViewController.alloc_init
  let nav := UINavigationController.initWithRootViewController bar content_controller
  (p.1,
   { toContainer := p.2,
     controller :=
       { nav with
           topViewController := { nav.topViewController with view := some p.2.native } } })

/-- `NavigationContainer.top_offset`:
`UIApplication.sharedApplication.statusBarFrame.size.height
 + self.controller.navigationBar.frame.size.height`. -/
def NavigationContainer.top_offset (app : UIApplicationState)
    (self : NavigationContainer) : ℚ :=
  app.statusBarFrame.size.height + self.controller.navigationBar.frame.size.height

/-- `NavigationContainer.height`:
`self.layout_native.bounds.size.height - self.top_offset`. -/
def NavigationContainer.height (heap : ViewHeap) (app : UIApplicationState)
    (self : NavigationContainer) : ℚ :=
  (heap self.layout_native).bounds.size.height - self.top_offset app

/-- Inherited `width` on `NavigationContainer`. -/
def NavigationContainer.width (heap : ViewHeap)
    (self : NavigationContainer) : ℚ :=
  Container.width heap self.toContainer

/-- `NavigationContainer.title` getter:
`return self.controller.topViewController.title`. -/
def NavigationContainer.titleGet (self : NavigationContainer) :
    Option String :=
  self.controller.topViewController.title

/-- `NavigationContainer.title` setter:
`self.controller.topViewController.title = value`. -/
def NavigationContainer.titleSet (self : NavigationContainer)
    (value : Option String) : NavigationContainer :=
  { self with
      controller :=
        { self.controller with
            topViewController :=
              { self.controller.topViewController with title := value } } }

/-- Inherited `content` setter on `NavigationContainer`. -/
def NavigationContainer.contentSet (selfId : ContainerId)
    (self : NavigationContainer) (wh : WidgetHeap) (widget : Option WidgetId) :
    NavigationContainer × WidgetHeap :=
  let p := BaseContainer.contentSet selfId self.toBaseContainer wh widget
  ({ self with toBaseContainer := p.1 }, p.2)

/-- Inherited `refreshed` on `NavigationContainer`. -/
def NavigationContainer.refreshed (self : NavigationContainer) :
    Except PyErr (List (RefreshCall NavigationContainer)) :=
  refreshedRun self.on_refresh self

/-- State-passing view of a Python property read: the source getter
bodies contain no assignment statements, so a read returns the value
together with the unchanged program state. -/
def propertyRead {σ α : Type} (getter : σ → α) (s : σ) : α × σ :=
  (getter s, s)

/-- The spec's variant-independent description of content assignment:
unwire the old root content, store the new widget as the content, wire
the new widget to the container.  Written from the spec's words, to be
compared with the setter each variant inherits from `BaseContainer`. -/
def specContentAssign (selfId : ContainerId) (old : Option WidgetId)
    (wh : WidgetHeap) (widget : Option WidgetId) :
    Option WidgetId × WidgetHeap :=
  let unwired : WidgetHeap :=
    match old with
    | none => wh
    | some c => fun i => if i = c then none else wh i
  match widget with
  | none => (widget, unwired)
  | some w => (widget, fun i => if i = w then some selfId else unwired i)

/-- C1: reading `top_offset` on a `NavigationContainer` returns the sum
of the shared application's status bar frame height and the container's
navigation bar frame height; on a `RootContainer` it returns the status
bar frame height alone; on a directly constructed `Container` it
returns 0. -/
theorem claim_C1_top_offset (app : UIApplicationState)
    (nc : NavigationContainer) (rc : RootContainer) (c : Container) :
    NavigationContainer.top_offset app nc
        = app.statusBarFrame.size.height
          + nc.controller.navigationBar.frame.size.height
    ∧ RootContainer.top_offset app rc = app.statusBarFrame.size.height
    ∧ Container.top_offset c = 0 :=
  ⟨rfl, rfl, rfl⟩

/-- C2: on `RootContainer` and `NavigationContainer`, `height` is the
`layout_native` bounds height minus that container's `top_offset` while
`width` is the bounds width unreduced; on a directly constructed
`Container`, `height` is the bounds height exactly. -/
theorem claim_C2_width_height (heap : ViewHeap) (app : UIApplicationState)
    (rc : RootContainer) (nc : NavigationContainer) (c : Container) :
    RootContainer.height heap app rc
        = (heap rc.layout_native).bounds.size.height
          - RootContainer.top_offset app rc
    ∧ NavigationContainer.height heap app nc
        = (heap nc.layout_native).bounds.size.height
          - NavigationContainer.top_offset app nc
    ∧ RootContainer.width heap rc = (heap rc.layout_native).bounds.size.width
    ∧ NavigationContainer.width heap nc
        = (heap nc.layout_native).bounds.size.width
    ∧ Container.height heap c = (heap c.layout_native).bounds.size.height
    ∧ Container.width heap c = (heap c.layout_native).bounds.size.width :=
  ⟨rfl, rfl, rfl, rfl, rfl, rfl⟩

/-- C10: title get-after-set round trips on both titled variants:
`RootContainer` stores the value in `_title`, `NavigationContainer`
delegates to the navigation controller's top view controller. -/
theorem claim_C10_title_roundtrip (rc : RootContainer)
    (nc : NavigationContainer) (v w : Option String) :
    (rc.titleSet v).titleGet = Except.ok v
    ∧ (nc.titleSet w).titleGet = w :=
  ⟨rfl, rfl⟩

/-- C9: constructing any variant with `layout_native=None` makes
`layout_native` the container's own freshly created native view, so
`width` and `height` report that native view's own bounds; a supplied
`layout_native` is stored unchanged and sizes come from it instead. -/
theorem claim_C9_layout_native_default (heap : ViewHeap) (fresh : ViewId)
    (content : Option WidgetId) (on_refresh : Option CallableId)
    (ln : ViewId) (bar : UINavigationBar) :
    (Container.init heap fresh content none on_refresh).2.layout_native
        = (Container.init heap fresh content none on_refresh).2.native
    ∧ Container.width (Container.init heap fresh content none on_refresh).1
          (Container.init heap fresh content none on_refresh).2
        = ((Container.init heap fresh content none on_refresh).1
            (Container.init heap fresh content none on_refresh).2.native).bounds.size.width
    ∧ Container.height (Container.init heap fresh content none on_refresh).1
          (Container.init heap fresh content none on_refresh).2
        = ((Container.init heap fresh content none on_refresh).1
            (Container.init heap fresh content none on_refresh).2.native).bounds.size.height
    ∧ (ControlledContainer.init heap fresh content none on_refresh).2.layout_native
        = (ControlledContainer.init heap fresh content none on_refresh).2.native
    ∧ (RootContainer.init heap fresh content none on_refresh).2.layout_native
        = (RootContainer.init heap fresh content none on_refresh).2.native
    ∧ (NavigationContainer.init heap fresh content none on_refresh bar).2.layout_native
        = (NavigationContainer.init heap fresh content none on_refresh bar).2.native
    ∧ (Container.init heap fresh content (some ln) on_refresh).2.layout_native = ln
    ∧ Container.width (Container.init heap fresh content (some ln) on_refresh).1
          (Container.init heap fresh content (some ln) on_refresh).2
        = ((Container.init heap fresh content (some ln) on_refresh).1 ln).bounds.size.width
    ∧ Container.height (Container.init heap fresh content (some ln) on_refresh).1
          (Container.init heap fresh content (some ln) on_refresh).2
        = ((Container.init heap fresh content (some ln) on_refresh).1 ln).bounds.size.height :=
  ⟨rfl, rfl, rfl, rfl, rfl, rfl, rfl, rfl, rfl⟩

/-- C7: when a container holds a refresh callback, `refreshed` applies
it exactly once, synchronously within the call, with the container
itself as the sole argument: the observable trace of the call is the
single event `call f self` and its result is returned directly. -/
theorem claim_C7_refreshed_single_call (f : CallableId)
    (b : BaseContainer) (c : Container) (cc : ControlledContainer)
    (rc : RootContainer) (nc : NavigationContainer)
    (hb : b.on_refresh = some f) (hc : c.on_refresh = some f)
    (hcc : cc.on_refresh = some f) (hrc : rc.on_refresh = some f)
    (hnc : nc.on_refresh = some f) :
    b.refreshed = Except.ok [RefreshCall.call f b]
    ∧ c.refreshed = Except.ok [RefreshCall.call f c]
    ∧ cc.refreshed = Except.ok [RefreshCall.call f cc]
    ∧ rc.refreshed = Except.ok [RefreshCall.call f rc]
    ∧ nc.refreshed = Except.ok [RefreshCall.call f nc] := by
  refine ⟨?_, ?_, ?_, ?_, ?_⟩ <;>
    simp [BaseContainer.refreshed, Container.refreshed,
      ControlledContainer.refreshed, RootContainer.refreshed,
      NavigationContainer.refreshed, refreshedRun, hb, hc, hcc, hrc, hnc]

/-- Witness for C7 at concrete containers whose `on_refresh` is the
callable `2`. -/
theorem claim_C7_witness :
    BaseContainer.refreshed ⟨none, some 2⟩
        = Except.ok [RefreshCall.call 2 ⟨none, some 2⟩]
    ∧ Container.refreshed ⟨⟨none, some 2⟩, 0, 0⟩
        = Except.ok [RefreshCall.call 2 ⟨⟨none, some 2⟩, 0, 0⟩]
    ∧ ControlledContainer.refreshed
          ⟨⟨⟨none, some 2⟩, 0, 0⟩, UIViewController.alloc_init⟩
        = Except.ok [RefreshCall.call 2
            ⟨⟨⟨none, some 2⟩, 0, 0⟩, UIViewController.alloc_init⟩]
    ∧ RootContainer.refreshed
          ⟨⟨⟨none, some 2⟩, 0, 0⟩, UIViewController.alloc_init, none⟩
        = Except.ok [RefreshCall.call 2
            ⟨⟨⟨none, some 2⟩, 0, 0⟩, UIViewController.alloc_init, none⟩]
    ∧ NavigationContainer.refreshed
          ⟨⟨⟨none, some 2⟩, 0, 0⟩, ⟨⟨⟨⟨0, 0⟩⟩⟩, UIViewController.alloc_init⟩⟩
        = Except.ok [RefreshCall.call 2
            ⟨⟨⟨none, some 2⟩, 0, 0⟩, ⟨⟨⟨⟨0, 0⟩⟩⟩, UIViewController.alloc_init⟩⟩] :=
  claim_C7_refreshed_single_call 2 ⟨none, some 2⟩ ⟨⟨none, some 2⟩, 0, 0⟩
    ⟨⟨⟨none, some 2⟩, 0, 0⟩, UIViewController.alloc_init⟩
    ⟨⟨⟨none, some 2⟩, 0, 0⟩, UIViewController.alloc_init, none⟩
    ⟨⟨⟨none, some 2⟩, 0, 0⟩, ⟨⟨⟨⟨0, 0⟩⟩⟩, UIViewController.alloc_init⟩⟩
    rfl rfl rfl rfl rfl

/-- C3 fails as stated when the assigned widget is the widget already
held: with container `0` holding widget `5`, assigning widget `5` again
leaves `5.container = some 0`, not `None` — the setter clears the old
content's `container` first but then re-wires the (same) new content. -/
theorem claim_C3_counterexample :
    ¬ (BaseContainer.contentSet 0 ⟨some 5, none⟩
          (fun i => if i = 5 then some 0 else none) (some 5)).2 5
        = none := by
  decide

/-- C3 amended: after `content = w` the stored content is `w`; a
previously held truthy content `c` ends with `c.container = None`
*unless `c` is `w` itself* (the setter re-wires it); a truthy `w` ends
with `w.container` = the container. -/
theorem claim_C3_content_set (selfId : ContainerId) (self : BaseContainer)
    (wh : WidgetHeap) (widget : Option WidgetId) :
    (BaseContainer.contentSet selfId self wh widget).1._content = widget
    ∧ (∀ c, self._content = some c → widget ≠ some c →
        (BaseContainer.contentSet selfId self wh widget).2 c = none)
    ∧ (∀ w, widget = some w →
        (BaseContainer.contentSet selfId self wh widget).2 w = some selfId) := by
  refine ⟨rfl, ?_, ?_⟩
  · intro c hc hne
    cases widget with
    | none =>
        simp [BaseContainer.contentSet, BaseContainer.content, hc]
    | some w =>
        have hwc : ¬ c = w := by
          intro h
          exact hne (by rw [h])
        simp [BaseContainer.contentSet, BaseContainer.content, hc, hwc]
  · intro w hw
    subst hw
    cases h : self._content with
    | none =>
        simp [BaseContainer.contentSet, BaseContainer.content, h]
    | some c =>
        simp [BaseContainer.contentSet, BaseContainer.content, h]

/-- Witness for C3 at a concrete input: container `0` holding widget `3`
is assigned widget `5`; afterwards the content is `5`, `3.container` is
`None`, and `5.container` is container `0`. -/
theorem claim_C3_witness :
    (BaseContainer.contentSet 0 ⟨some 3, none⟩
        (fun i => if i = 3 then some 0 else none) (some 5)).1._content
        = some 5
    ∧ (BaseContainer.contentSet 0 ⟨some 3, none⟩
        (fun i => if i = 3 then some 0 else none) (some 5)).2 3
        = none
    ∧ (BaseContainer.contentSet 0 ⟨some 3, none⟩
        (fun i => if i = 3 then some 0 else none) (some 5)).2 5
        = some 0 := by
  obtain ⟨h1, h2, h3⟩ :=
    claim_C3_content_set 0 ⟨some 3, none⟩
      (fun i => if i = 3 then some 0 else none) (some 5)
  exact ⟨h1, h2 3 rfl (by decide), h3 5 rfl⟩

/-- C8: assigning the same truthy widget twice in succession leaves
exactly the state one assignment leaves — content `w` and
`w.container` = the container — even though the second assignment
transiently clears `w.container` before re-setting it. -/
theorem claim_C8_content_set_idempotent (selfId : ContainerId)
    (self : BaseContainer) (wh : WidgetHeap) (w : WidgetId) :
    BaseContainer.contentSet selfId
        (BaseContainer.contentSet selfId self wh (some w)).1
        (BaseContainer.contentSet selfId self wh (some w)).2 (some w)
      = BaseContainer.contentSet selfId self wh (some w)
    ∧ (BaseContainer.contentSet selfId self wh (some w)).1._content = some w
    ∧ (BaseContainer.contentSet selfId self wh (some w)).2 w = some selfId := by
  obtain ⟨ct, rf⟩ := self
  refine ⟨?_, ?_, ?_⟩
  · cases ct with
    | none =>
        refine Prod.ext rfl ?_
        funext i
        by_cases h : i = w <;>
          simp [BaseContainer.contentSet, BaseContainer.content, h]
    | some c =>
        refine Prod.ext rfl ?_
        funext i
        by_cases h : i = w <;>
          simp [BaseContainer.contentSet, BaseContainer.content, h]
  · rfl
  · cases ct <;> simp [BaseContainer.contentSet, BaseContainer.content]


/-- C4: the four concrete variants (`Container`, `ControlledContainer`,
`RootContainer`, `NavigationContainer`) all perform content assignment
identically — each variant's setter realises the one variant-independent
spec-level assignment on its inherited base state, touching no
variant-specific chrome field — and each variant's content getter and
`refreshed` are the inherited `BaseContainer` behaviours applied to its
own base fields. -/
theorem claim_C4_variants_behave_identically (selfId : ContainerId)
    (wh : WidgetHeap) (widget : Option WidgetId) (c : Container)
    (cc : ControlledContainer) (rc : RootContainer)
    (nc : NavigationContainer) :
    ((Container.contentSet selfId c wh widget).1._content,
        (Container.contentSet selfId c wh widget).2)
        = specContentAssign selfId c._content wh widget
    ∧ ((ControlledContainer.contentSet selfId cc wh widget).1._content,
        (ControlledContainer.contentSet selfId cc wh widget).2)
        = specContentAssign selfId cc._content wh widget
    ∧ ((RootContainer.contentSet selfId rc wh widget).1._content,
        (RootContainer.contentSet selfId rc wh widget).2)
        = specContentAssign selfId rc._content wh widget
    ∧ ((NavigationContainer.contentSet selfId nc wh widget).1._content,
        (NavigationContainer.contentSet selfId nc wh widget).2)
        = specContentAssign selfId nc._content wh widget
    ∧ (Container.contentSet selfId c wh widget).1.native = c.native
    ∧ (Container.contentSet selfId c wh widget).1.layout_native
        = c.layout_native
    ∧ (ControlledContainer.contentSet selfId cc wh widget).1.controller
        = cc.controller
    ∧ (RootContainer.contentSet selfId rc wh widget).1.controller
        = rc.controller
    ∧ (RootContainer.contentSet selfId rc wh widget).1._title = rc._title
    ∧ (NavigationContainer.contentSet selfId nc wh widget).1.controller
        = nc.controller
    ∧ Container.content c = c._content
    ∧ Container.content cc.toContainer = cc._content
    ∧ Container.refreshed c = refreshedRun c.on_refresh c
    ∧ ControlledContainer.refreshed cc = refreshedRun cc.on_refresh cc
    ∧ RootContainer.refreshed rc = refreshedRun rc.on_refresh rc
    ∧ NavigationContainer.refreshed nc = refreshedRun nc.on_refresh nc := by
  obtain ⟨⟨ct, rf⟩, nat, ln⟩ := c
  obtain ⟨⟨⟨ct2, rf2⟩, nat2, ln2⟩, ctrl2⟩ := cc
  obtain ⟨⟨⟨ct3, rf3⟩, nat3, ln3⟩, ctrl3, tl3⟩ := rc
  obtain ⟨⟨⟨ct4, rf4⟩, nat4, ln4⟩, ctrl4⟩ := nc
  cases widget <;> cases ct <;> cases ct2 <;> cases ct3 <;> cases ct4 <;>
    exact ⟨rfl, rfl, rfl, rfl, rfl, rfl, rfl, rfl, rfl, rfl, rfl, rfl, rfl,
      rfl, rfl, rfl⟩

/-- C6: the module caches nothing.  Every geometric property is
recomputed from the live native state on each access — after the native
`layout_native` bounds or the application status bar change, the very
next read reports the new values — and every read listed by the claim
(`width`, `height`, `top_offset`, `content`, `title`) is a pure getter
that leaves the program state unchanged. -/
theorem claim_C6_no_caching :
    (∀ (heap : ViewHeap) (b : CGRect) (c : Container),
        Container.width (setViewBounds heap c.layout_native b) c
          = b.size.width)
    ∧ (∀ (heap : ViewHeap) (b : CGRect) (c : Container),
        Container.height (setViewBounds heap c.layout_native b) c
          = b.size.height)
    ∧ (∀ (app : UIApplicationState) (rc : RootContainer),
        RootContainer.top_offset app rc = app.statusBarFrame.size.height)
    ∧ (∀ (heap : ViewHeap) (b : CGRect) (app : UIApplicationState)
          (rc : RootContainer),
        RootContainer.height (setViewBounds heap rc.layout_native b) app rc
          = b.size.height - RootContainer.top_offset app rc)
    ∧ (∀ (app : UIApplicationState) (nc : NavigationContainer),
        NavigationContainer.top_offset app nc
          = app.statusBarFrame.size.height
            + nc.controller.navigationBar.frame.size.height)
    ∧ (∀ (heap : ViewHeap) (b : CGRect) (app : UIApplicationState)
          (nc : NavigationContainer),
        NavigationContainer.height (setViewBounds heap nc.layout_native b)
            app nc
          = b.size.height - NavigationContainer.top_offset app nc)
    ∧ (∀ (heap : ViewHeap) (c : Container),
        propertyRead (Container.width heap) c = (Container.width heap c, c))
    ∧ (∀ (heap : ViewHeap) (c : Container),
        propertyRead (Container.height heap) c = (Container.height heap c, c))
    ∧ (∀ (c : Container),
        propertyRead Container.top_offset c = (0, c))
    ∧ (∀ (b : BaseContainer),
        propertyRead BaseContainer.content b = (b._content, b))
    ∧ (∀ (rc : RootContainer),
        propertyRead RootContainer.titleGet rc = (rc.titleGet, rc))
    ∧ (∀ (nc : NavigationContainer),
        propertyRead NavigationContainer.titleGet nc
          = (nc.controller.topViewController.title, nc)) := by
  refine ⟨?_, ?_, ?_, ?_, ?_, ?_, ?_, ?_, ?_, ?_, ?_, ?_⟩ <;>
    intros <;>
    simp [Container.width, Container.height, RootContainer.height,
      NavigationContainer.height, setViewBounds, propertyRead,
      Container.top_offset, BaseContainer.content,
      NavigationContainer.titleGet, RootContainer.top_offset,
      NavigationContainer.top_offset]

/-- C5 is false as stated: a `RootContainer` built with the
constructor's defaults (`on_refresh=None`, no title ever assigned)
raises `AttributeError` from the `title` getter and `TypeError` from
`refreshed`. -/
theorem claim_C5_counterexample :
    (RootContainer.init (fun v => UIView.alloc_init) 0 none none none).2.titleGet
        = Except.error PyErr.attributeError
    ∧ (RootContainer.init (fun v => UIView.alloc_init) 0 none none none).2.refreshed
        = Except.error PyErr.typeError :=
  ⟨rfl, rfl⟩

/-- C5 amended: the only failure behaviour is attribute replacement
plus two raising reads — `refreshed` raises `TypeError` exactly when
`on_refresh` is `None`, and `RootContainer.title` raises
`AttributeError` exactly when no title was ever assigned; in every
other case these operations return normally (the content getter/setter,
`width`, `height`, `top_offset`, the title setters and
`NavigationContainer`'s title getter are total and never raise). -/
theorem claim_C5_failure_behaviour :
    (∀ (b : BaseContainer),
        b.refreshed = Except.error PyErr.typeError ↔ b.on_refresh = none)
    ∧ (∀ (rc : RootContainer),
        rc.titleGet = Except.error PyErr.attributeError ↔ rc._title = none)
    ∧ (∀ (b : BaseContainer) (f : CallableId), b.on_refresh = some f →
        b.refreshed = Except.ok [RefreshCall.call f b])
    ∧ (∀ (rc : RootContainer) (v : Option String), rc._title = some v →
        rc.titleGet = Except.ok v)
    ∧ (∀ (rc : RootContainer) (v : Option String),
        (rc.titleSet v).titleGet = Except.ok v)
    ∧ (∀ (nc : NavigationContainer) (v : Option String),
        (nc.titleSet v).titleGet = v) := by
  refine ⟨?_, ?_, ?_, ?_, ?_, ?_⟩
  · intro b
    cases h : b.on_refresh <;>
      simp [BaseContainer.refreshed, refreshedRun, h]
  · intro rc
    cases h : rc._title <;> simp [RootContainer.titleGet, h]
  · intro b f h
    simp [BaseContainer.refreshed, refreshedRun, h]
  · intro rc v h
    simp [RootContainer.titleGet, h]
  · intro rc v
    rfl
  · intro nc v
    rfl

/-- Witness for C5's amended theorem at concrete containers: a base
container whose callback is callable `2`, and a root container whose
title slot holds `"t"`. -/
theorem claim_C5_witness :
    BaseContainer.refreshed ⟨none, some 2⟩
        = Except.ok [RefreshCall.call 2 ⟨none, some 2⟩]
    ∧ RootContainer.titleGet
          ⟨⟨⟨none, none⟩, 0, 0⟩, UIViewController.alloc_init, some (some "t")⟩
        = Except.ok (some "t") := by
  obtain ⟨h1, h2, h3, h4, h5, h6⟩ := claim_C5_failure_behaviour
  exact ⟨h3 ⟨none, some 2⟩ 2 rfl,
    h4 ⟨⟨⟨none, none⟩, 0, 0⟩, UIViewController.alloc_init, some (some "t")⟩
      (some "t") rfl⟩
